import Mathlib

/-!
Shallow embedding of the forecast-and-notification engine of
`src/app.py` (observe-pro-backend), together with proofs about it.

Modelling conventions used throughout:

* Instants are `Int` seconds (UTC).  Python `timedelta(hours=h)` becomes
  `h * 3600`, `timedelta(days=d)` becomes `d * 86400`, `timedelta(minutes=m)`
  becomes `m * 60`.  Python's `timedelta.days` is a floor division by 86400
  and is embedded as `Int.fdiv`.  Calendar dates are embedded as day
  numbers (`Int.fdiv t 86400` for an instant `t`).
* A `try/except`-guarded parse of a timestamp or a number is embedded as a
  field of type `Option _` holding the parse result (`none` means the parse
  raised and the surrounding code took its exception path).
* Python floats (K-index values, latitudes, cloud/precipitation
  percentages) are embedded as `ℚ`; `.2f`-style number formatting inside
  human-readable messages is abstracted as `toString`.
* `scheduled_event_notification_job` converts both `now` and the event
  start into the user's timezone as aware datetimes; aware-datetime
  comparison is instant comparison, so the embedding uses a single `Int`
  timeline.
-/

namespace ObservePro

/-! ### Calendar helper

`epochUTC` converts a civil UTC date-time to seconds since 1970-01-01,
used to embed the ISO-8601 literals hard-coded in `src/app.py`
(`get_eclipse_events`).  `daysFromCivil` is the standard civil-from-days
algorithm. -/

def daysFromCivil (y m d : Int) : Int :=
  let y' := if m ≤ 2 then y - 1 else y
  let era := Int.fdiv y' 400
  let yoe := y' - era * 400
  let mp := if 2 < m then m - 3 else m + 9
  let doy := Int.fdiv (153 * mp + 2) 5 + d - 1
  let doe := yoe * 365 + Int.fdiv yoe 4 - Int.fdiv yoe 100 + doy
  era * 146097 + doe - 719468

def epochUTC (y m d hh mi ss : Int) : Int :=
  daysFromCivil y m d * 86400 + hh * 3600 + mi * 60 + ss

/-! ### KpForecastService (src/app.py lines 608-772)

A row of the NOAA Kp forecast table
`["YYYY-MM-DD HH:MM:SS", "3.33", "predicted", null]`.  The first two
components are kept as parse results (`t` for `strptime`, `kp` for
`float`); `scale` may be JSON `null`. -/

structure KpRow where
  t : Option Int
  kp : Option ℚ
  status : String
  scale : Option String
deriving DecidableEq

/-- The `max_entry` dictionary built by `summarize_kp_next_24h`; its
`time_tag` field stands for the source string `t_str + "Z"`, kept as the
parsed instant. -/
structure KpEntry where
  time_tag : Int
  kp : ℚ
  status : String
  noaa_scale : Option String
deriving DecidableEq

/-- One iteration of the row loop of `summarize_kp_next_24h`
(src/app.py lines 695-710): skip the row unless the timestamp parses,
lies in `[now, cutoff]` and the K-index parses; keep the strictly larger
K-index (first maximum wins ties, since the code compares `kp > max_kp`). -/
def summarizeStep (now cutoff : Int) (acc : Option ℚ × Option KpEntry) (row : KpRow) :
    Option ℚ × Option KpEntry :=
  match row.t with
  | none => acc
  | some t =>
    if now ≤ t ∧ t ≤ cutoff then
      match row.kp with
      | none => acc
      | some kp =>
        match acc.1 with
        | none => (some kp, some ⟨t, kp, row.status, row.scale⟩)
        | some m => if m < kp then (some kp, some ⟨t, kp, row.status, row.scale⟩) else acc
    else acc

/-- `summarize_kp_next_24h(kp_rows)` with the ambient `datetime.utcnow()`
made explicit as `now` (src/app.py lines 678-712).  The slice
`kp_rows[1:]` skips the header row. -/
def summarize_kp_next_24h (kp_rows : List KpRow) (now : Int) : Option ℚ × Option KpEntry :=
  (kp_rows.drop 1).foldl (summarizeStep now (now + 24 * 3600)) (none, none)

/-- `required_kp_for_lat` (src/app.py lines 655-675). -/
def required_kp_for_lat (lat : ℚ) : Int :=
  let a := |lat|
  if 67 ≤ a then 3
  else if 63 ≤ a then 4
  else if 60 ≤ a then 5
  else if 57 ≤ a then 6
  else if 54 ≤ a then 7
  else if 50 ≤ a then 8
  else 9

/-- The forward scan of `get_aurora_forecast` (src/app.py lines 727-737):
first row after the header whose timestamp and K-index parse, with
`t > now` and `kp >= req_kp`.  The code stores `t.strftime("%Y-%m-%d")`;
the embedding keeps the day number of `t`. -/
def next_possible_scan (kp_rows : List KpRow) (now : Int) (req_kp : Int) : Option Int :=
  (kp_rows.drop 1).findSome? fun row =>
    match row.t, row.kp with
    | some t, some kp => if now < t ∧ (req_kp : ℚ) ≤ kp then some (Int.fdiv t 86400) else none
    | _, _ => none

/-- The on-disk aurora cache document `{cached_at, kp_forecast}`
(src/app.py lines 608-618, 643-646).  `cached_at = none` stands for a
missing or unparsable `cached_at` value (the `except` path of
src/app.py lines 629-635); a wholly missing/unreadable/falsy cache file is
`Option CacheEntry = none`. -/
structure CacheEntry where
  cached_at : Option Int
  kp_forecast : List KpRow
deriving DecidableEq

def AURORA_CACHE_TTL_SECONDS : Int := 60 * 60

/-- The `# Fetch fresh` half of `fetch_noaa_kp_forecast_cached`
(src/app.py lines 637-652).  `upstream = some table` is a successful
`urlopen`+parse; `upstream = none` is a `URLError`.  The result carries
the returned table together with the cache state after the call. -/
def fetch_fresh (cache : Option CacheEntry) (now : Int) (upstream : Option (List KpRow)) :
    Except Unit (List KpRow × Option CacheEntry) :=
  match upstream with
  | some kp_forecast => .ok (kp_forecast, some ⟨some now, kp_forecast⟩)
  | none =>
    match cache with
    | some c => .ok (c.kp_forecast, some c)
    | none => .error ()

/-- `fetch_noaa_kp_forecast_cached` (src/app.py lines 622-652) with the
ambient cache file, clock and network made explicit. -/
def fetch_noaa_kp_forecast_cached (cache : Option CacheEntry) (now : Int)
    (upstream : Option (List KpRow)) : Except Unit (List KpRow × Option CacheEntry) :=
  match cache with
  | some c =>
    match c.cached_at with
    | some cached_at =>
      if now - cached_at < AURORA_CACHE_TTL_SECONDS then .ok (c.kp_forecast, some c)
      else fetch_fresh cache now upstream
    | none => fetch_fresh cache now upstream
  | none => fetch_fresh cache now upstream

/-- The dictionary returned by `get_aurora_forecast` (src/app.py lines
740-772). -/
structure AuroraForecast where
  lat : ℚ
  required_kp : Int
  kp_max_next_24h : Option ℚ
  peak : Option KpEntry
  likely : Bool
  next_possible : Option Int
  message : String
  source : String
  cached_at : Option Int
deriving DecidableEq

def likely_message (max_kp : ℚ) (req_kp : Int) : String :=
  "High chance tonight/next 24h (Kp max " ++ toString max_kp ++ " ≥ " ++ toString req_kp ++ ")"

def unlikely_message (max_kp : ℚ) (req_kp : Int) : String :=
  "Low chance (Kp max " ++ toString max_kp ++ " < " ++ toString req_kp ++ ")"

/-- `get_aurora_forecast(lat)` (src/app.py lines 714-772) with the fetched
table, the clock and the cache file read by `_load_aurora_cache` made
explicit.  `cache.bind CacheEntry.cached_at` is
`_load_aurora_cache().get("cached_at") if _load_aurora_cache() else None`. -/
def get_aurora_forecast (kp_rows : List KpRow) (now : Int) (lat : ℚ)
    (cache : Option CacheEntry) : AuroraForecast :=
  let s := summarize_kp_next_24h kp_rows now
  let req_kp := required_kp_for_lat lat
  let next_possible := next_possible_scan kp_rows now req_kp
  match s with
  | (none, _) =>
    { lat := lat, required_kp := req_kp, kp_max_next_24h := none, peak := none
      , likely := false, next_possible := next_possible
      , message := "No Kp forecast available right now."
      , source := "NOAA SWPC", cached_at := cache.bind CacheEntry.cached_at }
  | (some max_kp, max_entry) =>
    let likely := decide ((req_kp : ℚ) ≤ max_kp)
    { lat := lat, required_kp := req_kp, kp_max_next_24h := some max_kp, peak := max_entry
      , likely := likely, next_possible := next_possible
      , message := if likely then likely_message max_kp req_kp else unlikely_message max_kp req_kp
      , source := "NOAA SWPC", cached_at := cache.bind CacheEntry.cached_at }

/-! ### Visibility Engine (src/app.py lines 809-889) -/

/-- The `{"chance": ..., "reason": ...}` dictionary returned by
`estimate_visibility`. -/
structure VisScore where
  chance : Int
  reason : String
deriving DecidableEq

/-- The `visibility` field of an event dictionary: either the catalog
scope string (`"global"` / `"regional"`) or, after annotation by
`upcoming_events`, the `estimate_visibility` dictionary. -/
inductive VisField
  | scope (s : String)
  | score (v : VisScore)
deriving DecidableEq

/-- A normalized event dictionary as produced by the data providers of
src/app.py.  `stop` embeds the `"end"` field (`end` is reserved in Lean);
both instants are the parse results of the ISO strings (unparsable
events are outside the scope of this model — see `get_comet_events`). -/
structure CatalogEvent where
  id : String
  etype : String
  title : String
  subtitle : Option String := none
  start : Int
  stop : Int
  visibility : VisField := .scope "global"
  confidence : String := "high"
  source : String := "internal"
  tags : List String := []
deriving DecidableEq

/-- One hour of the weather document consumed by
`_weather_score_for_event`: `h["time"]` (parsed), `h["is_night"]`,
`h["cloud"]`, `h["precip"]`. -/
structure WeatherHour where
  time : Int
  is_night : Bool
  cloud : ℚ
  precip : ℚ
deriving DecidableEq

structure Weather where
  hours : List WeatherHour
deriving DecidableEq

def VISIBILITY_WINDOW_DAYS : Int := 28

/-- `BASE_EVENT_CHANCE.get(event["type"], 50)` (src/app.py lines 813-818). -/
def BASE_EVENT_CHANCE (etype : String) : Int :=
  if etype = "meteor" then 65
  else if etype = "eclipse" then 80
  else if etype = "comet" then 55
  else if etype = "aurora" then 70
  else 50

/-- The hour filter of `_weather_score_for_event` (src/app.py lines
833-837): night-flagged hours between the event start and one day past
its end. -/
def relevantHours (e : CatalogEvent) (w : Weather) : List WeatherHour :=
  w.hours.filter fun h =>
    h.is_night && decide (e.start ≤ h.time) && decide (h.time ≤ e.stop + 86400)

/-- `_weather_score_for_event` (src/app.py lines 825-845): `none` when no
relevant hour exists, else the pair of arithmetic means. -/
def weather_score_for_event (e : CatalogEvent) (w : Weather) : Option (ℚ × ℚ) :=
  let relevant := relevantHours e w
  if relevant.isEmpty then none
  else
    some ((relevant.map WeatherHour.cloud).sum / (relevant.length : ℚ),
          (relevant.map WeatherHour.precip).sum / (relevant.length : ℚ))

/-- `estimate_visibility` (src/app.py lines 848-889).  `lat`/`lon` are
accepted and ignored exactly as in the source.  When weather statistics
exist the cloud branch always contributes a reason part, so the
`"visibility uncertain"` fallback is taken exactly when
`_weather_score_for_event` returned `None`. -/
def estimate_visibility (e : CatalogEvent) (lat lon : ℚ) (w : Weather) : VisScore :=
  let base := BASE_EVENT_CHANCE e.etype
  match weather_score_for_event e w with
  | none => { chance := max 0 (min 100 base), reason := "visibility uncertain" }
  | some (avg_cloud, avg_precip) =>
    let s1 : Int × List String :=
      if avg_cloud < 20 then (base + 15, ["clear skies expected"])
      else if avg_cloud < 50 then (base + 5, ["partly cloudy skies"])
      else if avg_cloud < 75 then (base - 10, ["mostly cloudy"])
      else (base - 25, ["heavy cloud cover"])
    let s2 : Int × List String :=
      if 40 < avg_precip then (s1.1 - 20, s1.2 ++ ["rain likely"])
      else if 20 < avg_precip then (s1.1 - 10, s1.2 ++ ["chance of rain"])
      else s1
    { chance := max 0 (min 100 s2.1)
      , reason := (String.intercalate ", " s2.2).capitalize }

/-! ### Data providers (src/app.py lines 408-570, 891-1027) -/

/-- `_is_future` (src/app.py lines 601-605) on an event whose start
parses (`start >= datetime.utcnow()`). -/
def is_future (now : Int) (e : CatalogEvent) : Bool :=
  now ≤ e.start

/-- The event list hard-coded in `get_eclipse_events`
(src/app.py lines 449-527). -/
def eclipseCatalog : List CatalogEvent :=
  [ { id := "eclipse-2026-02-17-solar-annular", etype := "eclipse"
      , title := "Annular Solar Eclipse"
      , start := epochUTC 2026 2 17 0 0 0, stop := epochUTC 2026 2 17 23 59 59
      , visibility := .scope "global", confidence := "high"
      , source := "NASA Eclipse Catalog", tags := ["solar_eclipse", "annular"] }
  , { id := "eclipse-2026-03-03-lunar-total", etype := "eclipse"
      , title := "Total Lunar Eclipse"
      , start := epochUTC 2026 3 3 0 0 0, stop := epochUTC 2026 3 3 23 59 59
      , visibility := .scope "global", confidence := "high"
      , source := "NASA Eclipse Catalog", tags := ["lunar_eclipse", "total"] }
  , { id := "eclipse-2026-08-12-solar-total", etype := "eclipse"
      , title := "Total Solar Eclipse"
      , start := epochUTC 2026 8 12 0 0 0, stop := epochUTC 2026 8 12 23 59 59
      , visibility := .scope "global", confidence := "high"
      , source := "NASA Eclipse Catalog", tags := ["solar_eclipse", "total"] }
  , { id := "eclipse-2026-08-28-lunar-partial", etype := "eclipse"
      , title := "Partial Lunar Eclipse"
      , start := epochUTC 2026 8 28 0 0 0, stop := epochUTC 2026 8 28 23 59 59
      , visibility := .scope "global", confidence := "medium"
      , source := "NASA Eclipse Catalog", tags := ["lunar_eclipse", "partial"] }
  , { id := "eclipse-2027-02-06-solar-annular", etype := "eclipse"
      , title := "Annular Solar Eclipse"
      , start := epochUTC 2027 2 6 0 0 0, stop := epochUTC 2027 2 6 23 59 59
      , visibility := .scope "global", confidence := "high"
      , source := "NASA Eclipse Catalog", tags := ["solar_eclipse", "annular"] }
  , { id := "eclipse-2027-02-20-lunar-penumbral", etype := "eclipse"
      , title := "Penumbral Lunar Eclipse"
      , start := epochUTC 2027 2 20 0 0 0, stop := epochUTC 2027 2 20 23 59 59
      , visibility := .scope "global", confidence := "low"
      , source := "NASA Eclipse Catalog", tags := ["lunar_eclipse", "penumbral"] }
  , { id := "eclipse-2027-08-02-solar-total", etype := "eclipse"
      , title := "Total Solar Eclipse"
      , start := epochUTC 2027 8 2 0 0 0, stop := epochUTC 2027 8 2 23 59 59
      , visibility := .scope "global", confidence := "high"
      , source := "NASA Eclipse Catalog", tags := ["solar_eclipse", "total"] } ]

/-- `get_eclipse_events` (src/app.py lines 442-529): the hard-coded list
filtered by `_is_future`. -/
def get_eclipse_events (now : Int) : List CatalogEvent :=
  eclipseCatalog.filter (is_future now)

/-- One entry of `data/meteor_showers.json` as consumed by
`get_meteor_events`; `peakDay` is the day number of the `peak` date
string. -/
structure MeteorRaw where
  id : String
  name : String
  peakDay : Int
  confidence : String
  source : String
deriving DecidableEq

/-- The dictionary built for one shower by `get_meteor_events`
(src/app.py lines 534-547): `start = peak T00:00:00Z`,
`end = peak T23:59:59Z`. -/
def meteor_event_of (m : MeteorRaw) : CatalogEvent :=
  { id := m.id, etype := "meteor", title := m.name ++ " Peak"
    , start := m.peakDay * 86400, stop := m.peakDay * 86400 + 86399
    , visibility := .scope "global", confidence := m.confidence, source := m.source
    , tags := ["meteor_shower", m.name.toLower] }

/-- `get_meteor_events` (src/app.py lines 531-549). -/
def get_meteor_events (raw : List MeteorRaw) (now : Int) : List CatalogEvent :=
  (raw.map meteor_event_of).filter (is_future now)

/-- `get_comet_events` (src/app.py lines 553-565) restricted to entries
whose `end` (or, when absent, `start`) parses — `stop` holds that value;
the keep-on-parse-failure branch is outside this model, since such an
entry later makes `upcoming_events` itself raise. -/
def get_comet_events (raw : List CatalogEvent) (now : Int) : List CatalogEvent :=
  raw.filter fun e => decide (now ≤ e.stop)

/-- `get_alignment_events` (src/app.py lines 569-570). -/
def get_alignment_events (raw : List CatalogEvent) (now : Int) : List CatalogEvent :=
  raw.filter (is_future now)

/-! ### Special-moon synthesis (src/app.py lines 955-1027)

`MOON_RAW` items are embedded as a list standing for
`sorted(MOON_RAW.items())`: each entry carries the raw key string, its
parse result as a `(year, month, day)` triple, and the phase. -/

structure MoonRawEntry where
  date_str : String
  date_val : Option (Int × Int × Int)
  phase : String
deriving DecidableEq

def dayNumber (d : Int × Int × Int) : Int :=
  daysFromCivil d.1 d.2.1 d.2.2

/-- `month_names.get(month, "Full Moon")` (src/app.py lines 977-990,
1000). -/
def monthName (m : Int) : String :=
  if m = 1 then "Wolf Moon"
  else if m = 2 then "Snow Moon"
  else if m = 3 then "Worm Moon"
  else if m = 4 then "Pink Moon"
  else if m = 5 then "Flower Moon"
  else if m = 6 then "Strawberry Moon"
  else if m = 7 then "Buck Moon"
  else if m = 8 then "Sturgeon Moon"
  else if m = 9 then "Harvest Moon"
  else if m = 10 then "Hunter’s Moon"
  else if m = 11 then "Beaver Moon"
  else if m = 12 then "Cold Moon"
  else "Full Moon"

/-- `d.strftime("%B")` for the subtitle of a named full moon. -/
def monthEnglish (m : Int) : String :=
  if m = 1 then "January" else if m = 2 then "February" else if m = 3 then "March"
  else if m = 4 then "April" else if m = 5 then "May" else if m = 6 then "June"
  else if m = 7 then "July" else if m = 8 then "August" else if m = 9 then "September"
  else if m = 10 then "October" else if m = 11 then "November"
  else if m = 12 then "December" else ""

/-- The full-moon collection loop of `get_special_moon_events`
(src/app.py lines 963-972): entries whose date parses, lies in
`[today, today + days]` and whose phase is `"Full Moon"`. -/
def full_moons_in_window (raw : List MoonRawEntry) (today days : Int) :
    List ((Int × Int × Int) × String) :=
  raw.filterMap fun en =>
    match en.date_val with
    | none => none
    | some d =>
      if today ≤ dayNumber d ∧ dayNumber d ≤ today + days ∧ en.phase = "Full Moon"
      then some (d, en.date_str) else none

/-- Insertion into the `by_month` dictionary (`setdefault(key, []).append`,
src/app.py lines 993-996): Python dicts preserve key insertion order. -/
def insertGrouped (k : Int × Int) (v : (Int × Int × Int) × String) :
    List ((Int × Int) × List ((Int × Int × Int) × String)) →
    List ((Int × Int) × List ((Int × Int × Int) × String))
  | [] => [(k, [v])]
  | (k', vs) :: rest =>
    if k' = k then (k', vs ++ [v]) :: rest else (k', vs) :: insertGrouped k v rest

def groupByMonth (l : List ((Int × Int × Int) × String)) :
    List ((Int × Int) × List ((Int × Int × Int) × String)) :=
  l.foldl (fun acc dv => insertGrouped (dv.1.1, dv.1.2.1) dv acc) []

/-- The title computation of src/app.py lines 999-1009: the second full
moon of a multi-moon month is relabeled `"Blue Moon"`, every other one
gets its traditional month name. -/
def specialMoonTitle (mlen idx : Nat) (month : Int) : String :=
  if 1 < mlen ∧ idx = 1 then "Blue Moon" else monthName month

/-- The body of the inner `enumerate(moons)` loop of
`get_special_moon_events` (src/app.py lines 999-1025): compute the title,
apply the curated-title filter, and build the event dictionary. -/
def specialMoonEventOf (month : Int) (mlen : Nat)
    (im : Nat × ((Int × Int × Int) × String)) : Option CatalogEvent :=
  let title := specialMoonTitle mlen im.1 month
  if title = "Strawberry Moon" ∨ title = "Supermoon" ∨ title = "Micromoon" then
    some { id := "moon-special-" ++ im.2.2
         , etype := "moon_special", title := title
         , subtitle := some (if 1 < mlen ∧ im.1 = 1 then "Second full moon of the month"
                             else monthEnglish month ++ " full moon")
         , start := dayNumber im.2.1 * 86400
         , stop := dayNumber im.2.1 * 86400 + 86399
         , visibility := .scope "global", confidence := "high"
         , source := "Lunar tradition"
         , tags := if 1 < mlen ∧ im.1 = 1 then ["full_moon", "blue_moon"] else ["full_moon"] }
  else none

/-- `get_special_moon_events(days)` (src/app.py lines 955-1027), with the
ambient `datetime.utcnow().date()` made explicit as the day number
`today`. -/
def get_special_moon_events (raw : List MoonRawEntry) (days today : Int) :
    List CatalogEvent :=
  (groupByMonth (full_moons_in_window raw today days)).flatMap fun km =>
    km.2.enum.filterMap (specialMoonEventOf km.1.2 km.2.length)

/-! ### EventAggregator (src/app.py lines 776-807, 1261-1308) -/

/-- `aurora_forecast_to_upcoming_event` (src/app.py lines 776-807).  The
peak's date string `time_tag[:10]` is embedded as the day number of the
peak instant; the `data` payload and number formatting of the subtitle
are abstracted. -/
def aurora_forecast_to_upcoming_event (now : Int) (f : AuroraForecast) :
    Option CatalogEvent :=
  if f.likely then
    let dayOpt := f.peak.map fun p => Int.fdiv p.time_tag 86400
    some { id := "aurora-" ++ (match dayOpt with | some d => toString d | none => "today")
         , etype := "aurora"
         , title := "Aurora likely tonight in your area"
         , subtitle := some ("Lat " ++ toString f.lat ++ "°")
         , start := match dayOpt with | some d => d * 86400 | none => now
         , stop := match dayOpt with | some d => d * 86400 + 86399 | none => now
         , visibility := .scope "regional", confidence := "medium"
         , source := f.source, tags := ["aurora", "space_weather"] }
  else none

/-- The source aggregation of `upcoming_events` (src/app.py lines
1267-1285): catalog providers in source order, plus the synthetic aurora
event appended when `lat`/`lon` were supplied and the forecast is likely.
`forecast` is the `get_aurora_forecast(lat)` result of that branch. -/
def upcoming_all_events (now : Int) (meteorRaw : List MeteorRaw)
    (cometRaw alignRaw : List CatalogEvent) (moonRaw : List MoonRawEntry)
    (latlon : Option (ℚ × ℚ)) (forecast : Option AuroraForecast) : List CatalogEvent :=
  let all0 := get_eclipse_events now ++ get_meteor_events meteorRaw now ++
    get_comet_events cometRaw now ++
    get_special_moon_events moonRaw 60 (Int.fdiv now 86400) ++
    get_alignment_events alignRaw now
  match latlon, forecast with
  | some _, some f =>
    match aurora_forecast_to_upcoming_event now f with
    | some ae => all0 ++ [ae]
    | none => all0
  | _, _ => all0

/-- The per-event body of the enrichment loop of `upcoming_events`
(src/app.py lines 1288-1302): drop the event only once `end + 1 day < now`;
otherwise attach the `estimate_visibility` annotation when weather was
fetched (which in the source happens exactly when both `lat` and `lon`
are present) and `(start - now).days <= VISIBILITY_WINDOW_DAYS`
(`timedelta.days` is floor division). -/
def enrichOne (now : Int) (latlon : Option (ℚ × ℚ)) (weather : Option Weather)
    (e : CatalogEvent) : Option CatalogEvent :=
  if e.stop + 86400 < now then none
  else
    match weather, latlon with
    | some w, some ll =>
      if Int.fdiv (e.start - now) 86400 ≤ VISIBILITY_WINDOW_DAYS then
        some { e with visibility := .score (estimate_visibility e ll.1 ll.2 w) }
      else some e
    | _, _ => some e

/-- `upcoming_events` (src/app.py lines 1261-1308): aggregate, enrich,
sort ascending by start, truncate to 50.  The source sorts the ISO start
strings lexicographically, which on four-digit-year ISO strings is
chronological order, embedded as sorting the start instants. -/
def upcoming_events (now : Int) (meteorRaw : List MeteorRaw)
    (cometRaw alignRaw : List CatalogEvent) (moonRaw : List MoonRawEntry)
    (latlon : Option (ℚ × ℚ)) (weather : Option Weather)
    (forecast : Option AuroraForecast) : List CatalogEvent :=
  let enriched :=
    (upcoming_all_events now meteorRaw cometRaw alignRaw moonRaw latlon forecast).filterMap
      (enrichOne now latlon weather)
  (enriched.mergeSort fun a b => decide (a.start ≤ b.start)).take 50

/-! ### NotificationScheduler: milestone loop (src/app.py lines 273-391)

One fetched `user_events` row, restricted to the fields the loop body
reads.  The loop's query only returns rows with `start >= now` and the
body skips rows whose user join is missing or whose start does not
parse; `SavedEvent` stands for a row that reached the type dispatch.
The notification markers live in their own structure so that one loop
iteration can be modelled as a state transition on them. -/

structure Markers where
  notified_4h_at : Option Int := none
  notified_30m_at : Option Int := none
  notified_12h_at : Option Int := none
  notified_1h_at : Option Int := none
  notified_24h_at : Option Int := none
deriving DecidableEq

structure SavedEvent where
  id : String
  user_id : String
  etype : String
  title : String
  start : Int
deriving DecidableEq

/-- A `send_push(user_id, title, body, {"type": ...})` call. -/
structure Push where
  user_id : String
  title : String
  body : String
  dataType : String
deriving DecidableEq

def push4hAurora (ev : SavedEvent) : Push :=
  ⟨ev.user_id, "🌌 Aurora Incoming", "Aurora expected in ~4 hours.", "aurora"⟩

def push30mAurora (ev : SavedEvent) : Push :=
  ⟨ev.user_id, "🌌 Aurora Soon", "Aurora activity starting shortly.", "aurora"⟩

def push12hMeteor (ev : SavedEvent) : Push :=
  ⟨ev.user_id, "🌠 " ++ ev.title, "Meteor shower peak in ~12 hours.", "meteor"⟩

def push1hMeteor (ev : SavedEvent) : Push :=
  ⟨ev.user_id, "🌠 " ++ ev.title, "Meteor shower peak in ~1 hour.", "meteor"⟩

def push24hMajor (ev : SavedEvent) : Push :=
  ⟨ev.user_id, "🌌 " ++ ev.title, "Event begins in ~24 hours.", ev.etype⟩

def push1hMajor (ev : SavedEvent) : Push :=
  ⟨ev.user_id, "🌌 " ++ ev.title, "Event begins in ~1 hour.", ev.etype⟩

def push1hMoon (ev : SavedEvent) : Push :=
  ⟨ev.user_id, "🌙 " ++ ev.title, "Moon phase happening in ~1 hour.", "moon"⟩

/-- One pass of the type-dispatch body of
`scheduled_event_notification_job` over a single fetched row
(src/app.py lines 310-386), as a transition on the row's marker state.
Each milestone `if` reads the marker from the fetched row (the snapshot
`m`) and compares `now_local >= start_local - lead`, which on aware
datetimes is the instant comparison `start - lead ≤ now`; on firing it
dispatches one push and patches the marker to the current time. -/
def stepMarkers (now : Int) (ev : SavedEvent) (m : Markers) : Markers × List Push :=
  if ev.etype = "aurora" then
    ({ m with
        notified_4h_at :=
          if m.notified_4h_at = none ∧ ev.start - 4 * 3600 ≤ now then some now
          else m.notified_4h_at
        , notified_30m_at :=
          if m.notified_30m_at = none ∧ ev.start - 30 * 60 ≤ now then some now
          else m.notified_30m_at },
     (if m.notified_4h_at = none ∧ ev.start - 4 * 3600 ≤ now then [push4hAurora ev] else []) ++
     (if m.notified_30m_at = none ∧ ev.start - 30 * 60 ≤ now then [push30mAurora ev] else []))
  else if ev.etype = "meteor" then
    ({ m with
        notified_12h_at :=
          if m.notified_12h_at = none ∧ ev.start - 12 * 3600 ≤ now then some now
          else m.notified_12h_at
        , notified_1h_at :=
          if m.notified_1h_at = none ∧ ev.start - 1 * 3600 ≤ now then some now
          else m.notified_1h_at },
     (if m.notified_12h_at = none ∧ ev.start - 12 * 3600 ≤ now then [push12hMeteor ev] else []) ++
     (if m.notified_1h_at = none ∧ ev.start - 1 * 3600 ≤ now then [push1hMeteor ev] else []))
  else if ev.etype = "eclipse" ∨ ev.etype = "comet" ∨ ev.etype = "alignment" then
    ({ m with
        notified_24h_at :=
          if m.notified_24h_at = none ∧ ev.start - 24 * 3600 ≤ now then some now
          else m.notified_24h_at
        , notified_1h_at :=
          if m.notified_1h_at = none ∧ ev.start - 1 * 3600 ≤ now then some now
          else m.notified_1h_at },
     (if m.notified_24h_at = none ∧ ev.start - 24 * 3600 ≤ now then [push24hMajor ev] else []) ++
     (if m.notified_1h_at = none ∧ ev.start - 1 * 3600 ≤ now then [push1hMajor ev] else []))
  else if ev.etype = "moon" then
    ({ m with
        notified_1h_at :=
          if m.notified_1h_at = none ∧ ev.start - 1 * 3600 ≤ now then some now
          else m.notified_1h_at },
     if m.notified_1h_at = none ∧ ev.start - 1 * 3600 ≤ now then [push1hMoon ev] else [])
  else (m, [])

/-- Iterated milestone-loop cycles over one saved event: the marker state
is threaded through, the dispatched pushes are collected. -/
def runMarkers (ev : SavedEvent) : List Int → Markers → Markers × List Push
  | [], m => (m, [])
  | now :: rest, m =>
    let step := stepMarkers now ev m
    let tail := runMarkers ev rest step.1
    (tail.1, step.2 ++ tail.2)

/-! ### NotificationScheduler: aurora loop (src/app.py lines 204-271) -/

/-- The joined `users(id,lat,last_aurora_push_at)` record of one fetched
`user_events` row.  `last_aurora_push_at = none` stands for a null or
unparsable timestamp (both take the no-cooldown path). -/
structure AuroraUser where
  id : Option String
  lat : Option ℚ
  last_aurora_push_at : Option Int
deriving DecidableEq

/-- One fetched row of the aurora query: `row.get("users")` may be
missing. -/
structure AuroraRow where
  users : Option AuroraUser
deriving DecidableEq

/-- The row loop of `aurora_notification_job` (src/app.py lines 220-266)
with the `processed` set threaded explicitly.  `likely lat` stands for
`get_aurora_forecast(lat).get("likely")`.  Returns the list of user ids
pushed to and the `last_aurora_push_at` patches written (both in row
order). -/
def auroraCycleGo (likely : ℚ → Bool) (now : Int) :
    List AuroraRow → List String → List String × List (String × Int)
  | [], _ => ([], [])
  | row :: rest, processed =>
    match row.users with
    | none => auroraCycleGo likely now rest processed
    | some user =>
      match user.id with
      | none => auroraCycleGo likely now rest processed
      | some uid =>
        if uid ∈ processed then auroraCycleGo likely now rest processed
        else
          let processed' := uid :: processed
          match user.lat with
          | none => auroraCycleGo likely now rest processed'
          | some lat =>
            let cooled : Bool :=
              match user.last_aurora_push_at with
              | some last => decide (now - last < 12 * 3600)
              | none => false
            if cooled then auroraCycleGo likely now rest processed'
            else if likely lat then
              let tail := auroraCycleGo likely now rest processed'
              (uid :: tail.1, (uid, now) :: tail.2)
            else auroraCycleGo likely now rest processed'

/-- One full cycle of `aurora_notification_job`, starting with an empty
`processed` set. -/
def aurora_notification_cycle (likely : ℚ → Bool) (now : Int) (rows : List AuroraRow) :
    List String × List (String × Int) :=
  auroraCycleGo likely now rows []

/-! ### Declarative descriptions and concrete instances used by the
theorems below -/

/-- Declarative row qualification for `summarize_kp_next_24h`: the entry a
row contributes when its timestamp parses into `[now, cutoff]` and its
K-index parses. -/
def entryOfRow (now cutoff : Int) (row : KpRow) : Option KpEntry :=
  match row.t with
  | none => none
  | some t =>
    if now ≤ t ∧ t ≤ cutoff then
      match row.kp with
      | none => none
      | some kp => some ⟨t, kp, row.status, row.scale⟩
    else none

/-- All qualifying samples of a table: header skipped, window applied,
malformed rows skipped. -/
def qualifiedEntries (kp_rows : List KpRow) (now : Int) : List KpEntry :=
  (kp_rows.drop 1).filterMap (entryOfRow now (now + 24 * 3600))

/-- Invariant of the `summarize_kp_next_24h` accumulator over the already
scanned qualifying entries. -/
def summAccOk (acc : Option ℚ × Option KpEntry) (seen : List KpEntry) : Prop :=
  match acc.1 with
  | none => acc.2 = none ∧ seen = []
  | some k => ∃ en, acc.2 = some en ∧ en.kp = k ∧ en ∈ seen ∧ ∀ en' ∈ seen, en'.kp ≤ k

/-- A concrete saved meteor event used in closed instances. -/
def demoMeteor : SavedEvent :=
  { id := "ue-1", user_id := "u1", etype := "meteor", title := "Perseids Peak"
    , start := 100000 }

/-- A concrete saved aurora event used in closed instances. -/
def demoAurora : SavedEvent :=
  { id := "ue-2", user_id := "u2", etype := "aurora", title := "Aurora watch"
    , start := 7200 }

/-- The table of spec §8: a header row, a sample at `now + 1h` with Kp 5
and one at `now + 30h` with Kp 9 (evaluated at `now = 0`). -/
def exampleKpRows : List KpRow :=
  [ ⟨none, none, "observed", some "noaa_scale"⟩
  , ⟨some 3600, some 5, "predicted", none⟩
  , ⟨some (30 * 3600), some 9, "predicted", none⟩ ]

/-- A concrete comet catalog entry whose end lies 23 hours in the past of
the reference instant 1900000000 (2030-03-17 UTC, past every hard-coded
eclipse). -/
def c2comet : CatalogEvent :=
  { id := "comet-c2", etype := "comet", title := "Comet C2"
    , start := 1900000000 - 30 * 86400, stop := 1900000000 - 23 * 3600
    , confidence := "medium", source := "catalog" }

/-- A concrete comet catalog entry starting 28.5 days after the reference
instant 1900000000. -/
def c8event : CatalogEvent :=
  { id := "comet-c8", etype := "comet", title := "Comet C8"
    , start := 1900000000 + 28 * 86400 + 43200
    , stop := 1900000000 + 28 * 86400 + 43200 + 10
    , confidence := "medium", source := "catalog" }

/-- A one-entry moon table holding the June 2026 full moon. -/
def demoMoonRaw : List MoonRawEntry :=
  [ ⟨"2026-06-29", some (2026, 6, 29), "Full Moon"⟩ ]

def demoMoonToday : Int := daysFromCivil 2026 6 1

/-- The special-moon event synthesized from `demoMoonRaw`. -/
def strawberryDemo : CatalogEvent :=
  { id := "moon-special-2026-06-29", etype := "moon_special"
    , title := "Strawberry Moon", subtitle := some "June full moon"
    , start := daysFromCivil 2026 6 29 * 86400
    , stop := daysFromCivil 2026 6 29 * 86400 + 86399
    , visibility := .scope "global", confidence := "high"
    , source := "Lunar tradition", tags := ["full_moon"] }

/-! ## Theorems -/

/-- Helper: one `summarize_kp_next_24h` step preserves the accumulator
invariant, extending the scanned entries by the row's contribution. -/
theorem summarizeStep_ok (now cutoff : Int) (acc : Option ℚ × Option KpEntry)
    (seen : List KpEntry) (row : KpRow) (h : summAccOk acc seen) :
    summAccOk (summarizeStep now cutoff acc row)
      (seen ++ (entryOfRow now cutoff row).toList) := by
  rcases acc with ⟨a1, a2⟩
  rcases row with ⟨t, kp, status, scale⟩
  rcases t with _ | t
  · simpa [summarizeStep, entryOfRow] using h
  · by_cases hw : now ≤ t ∧ t ≤ cutoff
    · rcases kp with _ | kp
      · simpa [summarizeStep, entryOfRow, hw] using h
      · rcases a1 with _ | m
        · have h' : a2 = none ∧ seen = [] := h
          rcases h' with ⟨h2, h3⟩
          subst h2
          subst h3
          simp [summarizeStep, entryOfRow, hw, summAccOk]
        · have h' : ∃ en, a2 = some en ∧ en.kp = m ∧ en ∈ seen ∧
              ∀ en' ∈ seen, en'.kp ≤ m := h
          rcases h' with ⟨en0, hen0, hkp0, hmem0, hbound0⟩
          by_cases hlt : m < kp
          · simp only [summarizeStep, entryOfRow, hw, and_self, if_true, hlt, summAccOk]
            refine ⟨⟨t, kp, status, scale⟩, rfl, rfl, by simp, ?_⟩
            intro en' hen'
            rcases List.mem_append.mp hen' with h' | h'
            · exact le_of_lt (lt_of_le_of_lt (hbound0 en' h') hlt)
            · simp only [Option.toList_some, List.mem_singleton] at h'
              subst h'
              exact le_refl _
          · simp only [summarizeStep, entryOfRow, hw, and_self, if_true, hlt, if_false,
              summAccOk]
            refine ⟨en0, hen0, hkp0, List.mem_append.mpr (Or.inl hmem0), ?_⟩
            intro en' hen'
            rcases List.mem_append.mp hen' with h' | h'
            · exact hbound0 en' h'
            · simp only [Option.toList_some, List.mem_singleton] at h'
              subst h'
              exact le_of_not_lt hlt
    · simpa [summarizeStep, entryOfRow, hw] using h

/-- Helper: the folded `summarize_kp_next_24h` scan satisfies the
accumulator invariant over all qualifying entries. -/
theorem summarizeFold_ok (now cutoff : Int) :
    ∀ (l : List KpRow) (acc : Option ℚ × Option KpEntry) (seen : List KpEntry),
      summAccOk acc seen →
      summAccOk (l.foldl (summarizeStep now cutoff) acc)
        (seen ++ l.filterMap (entryOfRow now cutoff))
  | [], acc, seen, h => by simpa using h
  | row :: rest, acc, seen, h => by
    have h1 := summarizeStep_ok now cutoff acc seen row h
    have h2 := summarizeFold_ok now cutoff rest (summarizeStep now cutoff acc row)
      (seen ++ (entryOfRow now cutoff row).toList) h1
    rcases hrow : entryOfRow now cutoff row with _ | en <;>
      simpa [List.filterMap_cons, hrow, List.append_assoc] using h2

/-- C5: `summarize_kp_next_24h` skips the header row, considers only rows
whose timestamp parses into `[now, now + 24h]` and whose K-index parses,
and returns the maximum qualifying K-index together with a full
qualifying sample achieving it (`none` when no row qualifies); on the
spec's example table (samples at `now + 1h` with Kp 5 and `now + 30h`
with Kp 9) it returns Kp 5 with the `now + 1h` sample. -/
theorem summarize_next_24h_spec (kp_rows : List KpRow) (now : Int) :
    ((summarize_kp_next_24h kp_rows now).1 = none ↔ qualifiedEntries kp_rows now = []) ∧
    (∀ k, (summarize_kp_next_24h kp_rows now).1 = some k →
      k ∈ (qualifiedEntries kp_rows now).map KpEntry.kp ∧
      ∀ k' ∈ (qualifiedEntries kp_rows now).map KpEntry.kp, k' ≤ k) ∧
    (∀ en, (summarize_kp_next_24h kp_rows now).2 = some en →
      en ∈ qualifiedEntries kp_rows now ∧
      (summarize_kp_next_24h kp_rows now).1 = some en.kp) ∧
    summarize_kp_next_24h exampleKpRows 0 =
      (some 5, some ⟨3600, 5, "predicted", none⟩) := by
  have H := summarizeFold_ok now (now + 24 * 3600) (kp_rows.drop 1) (none, none) []
    (by simp [summAccOk])
  simp only [List.nil_append] at H
  have hq : (kp_rows.drop 1).filterMap (entryOfRow now (now + 24 * 3600)) =
      qualifiedEntries kp_rows now := rfl
  rw [hq] at H
  have hsum : summarize_kp_next_24h kp_rows now =
      (kp_rows.drop 1).foldl (summarizeStep now (now + 24 * 3600)) (none, none) := rfl
  rw [← hsum] at H
  refine ⟨?_, ?_, ?_, by decide⟩
  · constructor
    · intro h1
      rw [summAccOk, h1] at H
      exact H.2
    · intro h1
      rcases h2 : (summarize_kp_next_24h kp_rows now).1 with _ | k
      · rfl
      · rw [summAccOk, h2] at H
        rcases H with ⟨en, _, _, hmem, _⟩
        rw [h1] at hmem
        exact absurd hmem (List.not_mem_nil en)
  · intro k hk
    rw [summAccOk, hk] at H
    rcases H with ⟨en, _, hkp, hmem, hbound⟩
    constructor
    · exact List.mem_map.mpr ⟨en, hmem, hkp⟩
    · intro k' hk'
      rcases List.mem_map.mp hk' with ⟨en', hmem', hkp'⟩
      rw [← hkp']
      exact hbound en' hmem'
  · intro en hen
    rcases h2 : (summarize_kp_next_24h kp_rows now).1 with _ | k
    · rw [summAccOk, h2] at H
      rw [H.1] at hen
      exact absurd hen (by simp)
    · rw [summAccOk, h2] at H
      rcases H with ⟨en0, hen0, hkp0, hmem0, _⟩
      rw [hen0] at hen
      injection hen with hen
      subst hen
      refine ⟨hmem0, ?_⟩
      rw [hkp0]

/-- Closed instance of `summarize_next_24h_spec`: a table with no rows
yields no qualifying sample. -/
theorem summarize_next_24h_spec_witness :
    (summarize_kp_next_24h [] 0).1 = none :=
  (summarize_next_24h_spec [] 0).1.mpr rfl

/-- C3: the Kp-forecast fetch satisfies the bounded-staleness cache
policy: a cache entry younger than the 1-hour TTL is returned with no
upstream call (the result does not depend on the upstream at all); on
upstream failure any existing cached table is returned regardless of its
age; on upstream failure with no cache the transport error is
propagated. -/
theorem kp_fetch_cache_policy (cache : Option CacheEntry) (now : Int) (c : CacheEntry)
    (t : Int) :
    (cache = some c → c.cached_at = some t → now - t < AURORA_CACHE_TTL_SECONDS →
      ∀ up up' : Option (List KpRow),
        fetch_noaa_kp_forecast_cached cache now up = .ok (c.kp_forecast, some c) ∧
        fetch_noaa_kp_forecast_cached cache now up =
          fetch_noaa_kp_forecast_cached cache now up') ∧
    (cache = some c →
      fetch_noaa_kp_forecast_cached cache now none = .ok (c.kp_forecast, some c)) ∧
    fetch_noaa_kp_forecast_cached none now none = .error () := by
  refine ⟨?_, ?_, rfl⟩
  · rintro rfl h1 h2 up up'
    simp [fetch_noaa_kp_forecast_cached, h1, h2]
  · rintro rfl
    unfold fetch_noaa_kp_forecast_cached fetch_fresh
    rcases h : c.cached_at with _ | ct <;> simp [h]

/-- Closed instance of `kp_fetch_cache_policy`: a fresh cache entry is
served on upstream failure, and a missing cache propagates the error. -/
theorem kp_fetch_cache_policy_witness :
    fetch_noaa_kp_forecast_cached (some ⟨some 0, []⟩) 100 none =
      .ok ([], some ⟨some 0, []⟩) ∧
    fetch_noaa_kp_forecast_cached none 100 none = .error () :=
  ⟨(kp_fetch_cache_policy (some ⟨some 0, []⟩) 100 ⟨some 0, []⟩ 0).2.1 rfl,
   (kp_fetch_cache_policy (some ⟨some 0, []⟩) 100 ⟨some 0, []⟩ 0).2.2⟩

/-- C4: `get_aurora_forecast` returns `likely = true` iff the 24h maximum
K-index exists and reaches `required_kp_for_lat lat`; with an empty
window (`kp_max_next_24h = none`) it is `false` for every latitude and
the result still carries the explanatory message, the `next_possible`
scan result and the cache provenance. -/
theorem aurora_forecast_likely_iff (kp_rows : List KpRow) (now : Int) (lat : ℚ)
    (cache : Option CacheEntry) :
    ((get_aurora_forecast kp_rows now lat cache).likely = true ↔
      ∃ k, (get_aurora_forecast kp_rows now lat cache).kp_max_next_24h = some k ∧
        (required_kp_for_lat lat : ℚ) ≤ k) ∧
    ((get_aurora_forecast kp_rows now lat cache).kp_max_next_24h = none →
      (get_aurora_forecast kp_rows now lat cache).likely = false ∧
      (get_aurora_forecast kp_rows now lat cache).message =
        "No Kp forecast available right now." ∧
      (get_aurora_forecast kp_rows now lat cache).next_possible =
        next_possible_scan kp_rows now (required_kp_for_lat lat) ∧
      (get_aurora_forecast kp_rows now lat cache).cached_at =
        cache.bind CacheEntry.cached_at) := by
  rcases hs : summarize_kp_next_24h kp_rows now with ⟨mk, me⟩
  cases mk <;> simp [get_aurora_forecast, hs]

/-- Closed instance of `aurora_forecast_likely_iff` on an empty table. -/
theorem aurora_forecast_likely_iff_witness :
    (get_aurora_forecast [] 0 65 none).likely = false ∧
    (get_aurora_forecast [] 0 65 none).message = "No Kp forecast available right now." :=
  ⟨((aurora_forecast_likely_iff [] 0 65 none).2 (by decide)).1,
   ((aurora_forecast_likely_iff [] 0 65 none).2 (by decide)).2.1⟩

/-- Helper: every base chance lies in `[0, 100]`. -/
theorem base_chance_bounds (t : String) :
    0 ≤ BASE_EVENT_CHANCE t ∧ BASE_EVENT_CHANCE t ≤ 100 := by
  unfold BASE_EVENT_CHANCE
  split_ifs <;> norm_num

/-- C9: the visibility score starts from the per-type base (meteor 65,
eclipse 80, comet 55, aurora 70, otherwise 50); with no matching night
hour the result is exactly the base with reason `"visibility uncertain"`;
otherwise the cloud and precipitation mean adjustments are added and the
result clamped to `[0, 100]`; mean cloud 10 with mean precipitation 0
yields `min 100 (base + 15)`. -/
theorem visibility_score_spec (e : CatalogEvent) (lat lon : ℚ) (w : Weather) :
    (BASE_EVENT_CHANCE "meteor" = 65 ∧ BASE_EVENT_CHANCE "eclipse" = 80 ∧
     BASE_EVENT_CHANCE "comet" = 55 ∧ BASE_EVENT_CHANCE "aurora" = 70 ∧
     ∀ t, t ≠ "meteor" → t ≠ "eclipse" → t ≠ "comet" → t ≠ "aurora" →
       BASE_EVENT_CHANCE t = 50) ∧
    (relevantHours e w = [] →
      estimate_visibility e lat lon w =
        { chance := BASE_EVENT_CHANCE e.etype, reason := "visibility uncertain" }) ∧
    (∀ c p, weather_score_for_event e w = some (c, p) →
      (estimate_visibility e lat lon w).chance =
        max 0 (min 100 (BASE_EVENT_CHANCE e.etype +
          (if c < 20 then 15 else if c < 50 then 5 else if c < 75 then -10 else -25) +
          (if 40 < p then -20 else if 20 < p then -10 else 0)))) ∧
    (weather_score_for_event e w = some (10, 0) →
      (estimate_visibility e lat lon w).chance = min 100 (BASE_EVENT_CHANCE e.etype + 15)) ∧
    0 ≤ (estimate_visibility e lat lon w).chance ∧
    (estimate_visibility e lat lon w).chance ≤ 100 := by
  have hbase := base_chance_bounds e.etype
  refine ⟨⟨rfl, rfl, rfl, rfl, ?_⟩, ?_, ?_, ?_, ?_⟩
  · intro t h1 h2 h3 h4
    simp [BASE_EVENT_CHANCE, h1, h2, h3, h4]
  · intro hrel
    have hw : weather_score_for_event e w = none := by
      simp [weather_score_for_event, hrel]
    simp [estimate_visibility, hw]
    omega
  · intro c p hw
    simp only [estimate_visibility, hw]
    split_ifs <;> simp <;> ring_nf
  · intro hw
    simp only [estimate_visibility, hw]
    norm_num
    omega
  · rcases hw : weather_score_for_event e w with _ | ⟨c, p⟩ <;>
      simp [estimate_visibility, hw] <;> split_ifs <;> omega

/-- Helper: one milestone-loop pass never clears a set marker. -/
theorem stepMarkers_keeps_fired (now : Int) (ev : SavedEvent) (m : Markers) (t : Int) :
    (m.notified_4h_at = some t → (stepMarkers now ev m).1.notified_4h_at = some t) ∧
    (m.notified_30m_at = some t → (stepMarkers now ev m).1.notified_30m_at = some t) ∧
    (m.notified_12h_at = some t → (stepMarkers now ev m).1.notified_12h_at = some t) ∧
    (m.notified_1h_at = some t → (stepMarkers now ev m).1.notified_1h_at = some t) ∧
    (m.notified_24h_at = some t → (stepMarkers now ev m).1.notified_24h_at = some t) := by
  refine ⟨?_, ?_, ?_, ?_, ?_⟩ <;> intro h <;> unfold stepMarkers <;>
    split_ifs <;> simp_all

/-- Helper: one milestone-loop pass never dispatches a milestone whose
marker is already set (pushes are identified by their fixed body). -/
theorem stepMarkers_no_repush (now : Int) (ev : SavedEvent) (m : Markers) :
    (m.notified_4h_at ≠ none →
      ∀ p ∈ (stepMarkers now ev m).2, p.body ≠ "Aurora expected in ~4 hours.") ∧
    (m.notified_30m_at ≠ none →
      ∀ p ∈ (stepMarkers now ev m).2, p.body ≠ "Aurora activity starting shortly.") ∧
    (m.notified_12h_at ≠ none →
      ∀ p ∈ (stepMarkers now ev m).2, p.body ≠ "Meteor shower peak in ~12 hours.") ∧
    (m.notified_24h_at ≠ none →
      ∀ p ∈ (stepMarkers now ev m).2, p.body ≠ "Event begins in ~24 hours.") ∧
    (m.notified_1h_at ≠ none →
      ∀ p ∈ (stepMarkers now ev m).2,
        p.body ≠ "Meteor shower peak in ~1 hour." ∧ p.body ≠ "Event begins in ~1 hour." ∧
        p.body ≠ "Moon phase happening in ~1 hour.") := by
  refine ⟨?_, ?_, ?_, ?_, ?_⟩ <;> intro h <;> unfold stepMarkers <;>
    split_ifs <;>
    simp_all [push4hAurora, push30mAurora, push12hMeteor, push1hMeteor, push24hMajor,
      push1hMajor, push1hMoon]

/-- Helper: a set marker stays set and is never re-dispatched over any
number of further milestone-loop passes. -/
theorem runMarkers_keeps_fired (ev : SavedEvent) :
    ∀ (nows : List Int) (m : Markers) (t : Int),
      (m.notified_4h_at = some t → (runMarkers ev nows m).1.notified_4h_at = some t ∧
        ∀ p ∈ (runMarkers ev nows m).2, p.body ≠ "Aurora expected in ~4 hours.") ∧
      (m.notified_30m_at = some t → (runMarkers ev nows m).1.notified_30m_at = some t ∧
        ∀ p ∈ (runMarkers ev nows m).2, p.body ≠ "Aurora activity starting shortly.") ∧
      (m.notified_12h_at = some t → (runMarkers ev nows m).1.notified_12h_at = some t ∧
        ∀ p ∈ (runMarkers ev nows m).2, p.body ≠ "Meteor shower peak in ~12 hours.") ∧
      (m.notified_24h_at = some t → (runMarkers ev nows m).1.notified_24h_at = some t ∧
        ∀ p ∈ (runMarkers ev nows m).2, p.body ≠ "Event begins in ~24 hours.") ∧
      (m.notified_1h_at = some t → (runMarkers ev nows m).1.notified_1h_at = some t ∧
        ∀ p ∈ (runMarkers ev nows m).2,
          p.body ≠ "Meteor shower peak in ~1 hour." ∧ p.body ≠ "Event begins in ~1 hour." ∧
          p.body ≠ "Moon phase happening in ~1 hour.")
  | [], m, t => by simp [runMarkers]
  | now :: rest, m, t => by
    have hstep := stepMarkers_keeps_fired now ev m t
    have hnop := stepMarkers_no_repush now ev m
    have ih := runMarkers_keeps_fired ev rest (stepMarkers now ev m).1 t
    refine ⟨?_, ?_, ?_, ?_, ?_⟩ <;> intro h
    · have h1 := hstep.1 h
      have h2 := ih.1 h1
      refine ⟨by simpa [runMarkers] using h2.1, ?_⟩
      intro p hp
      simp only [runMarkers, List.mem_append] at hp
      rcases hp with hp | hp
      · exact hnop.1 (by simp [h]) p hp
      · exact h2.2 p hp
    · have h1 := hstep.2.1 h
      have h2 := ih.2.1 h1
      refine ⟨by simpa [runMarkers] using h2.1, ?_⟩
      intro p hp
      simp only [runMarkers, List.mem_append] at hp
      rcases hp with hp | hp
      · exact hnop.2.1 (by simp [h]) p hp
      · exact h2.2 p hp
    · have h1 := hstep.2.2.1 h
      have h2 := ih.2.2.1 h1
      refine ⟨by simpa [runMarkers] using h2.1, ?_⟩
      intro p hp
      simp only [runMarkers, List.mem_append] at hp
      rcases hp with hp | hp
      · exact hnop.2.2.1 (by simp [h]) p hp
      · exact h2.2 p hp
    · have h1 := hstep.2.2.2.2 h
      have h2 := ih.2.2.2.1 h1
      refine ⟨by simpa [runMarkers] using h2.1, ?_⟩
      intro p hp
      simp only [runMarkers, List.mem_append] at hp
      rcases hp with hp | hp
      · exact hnop.2.2.2.1 (by simp [h]) p hp
      · exact h2.2 p hp
    · have h1 := hstep.2.2.2.1 h
      have h2 := ih.2.2.2.2 h1
      refine ⟨by simpa [runMarkers] using h2.1, ?_⟩
      intro p hp
      simp only [runMarkers, List.mem_append] at hp
      rcases hp with hp | hp
      · exact hnop.2.2.2.2 (by simp [h]) p hp
      · exact h2.2 p hp

/-- C6: per (saved event, milestone) the loop is a pending/fired state
machine: each milestone dispatches and sets its marker exactly when the
marker is unset and `now ≥ start − lead` (meteor 12h then 1h;
eclipse/comet/alignment 24h then 1h; moon 1h only), and a set marker is
terminal — any number of further passes neither re-dispatch that
milestone nor clear the marker. -/
theorem milestone_state_machine (now : Int) (ev : SavedEvent) (m : Markers) :
    (ev.etype = "meteor" →
      (push12hMeteor ev ∈ (stepMarkers now ev m).2 ↔
        m.notified_12h_at = none ∧ ev.start - 12 * 3600 ≤ now) ∧
      (push1hMeteor ev ∈ (stepMarkers now ev m).2 ↔
        m.notified_1h_at = none ∧ ev.start - 1 * 3600 ≤ now) ∧
      (stepMarkers now ev m).1.notified_12h_at =
        (if m.notified_12h_at = none ∧ ev.start - 12 * 3600 ≤ now then some now
         else m.notified_12h_at) ∧
      (stepMarkers now ev m).1.notified_1h_at =
        (if m.notified_1h_at = none ∧ ev.start - 1 * 3600 ≤ now then some now
         else m.notified_1h_at)) ∧
    (ev.etype = "eclipse" ∨ ev.etype = "comet" ∨ ev.etype = "alignment" →
      (push24hMajor ev ∈ (stepMarkers now ev m).2 ↔
        m.notified_24h_at = none ∧ ev.start - 24 * 3600 ≤ now) ∧
      (push1hMajor ev ∈ (stepMarkers now ev m).2 ↔
        m.notified_1h_at = none ∧ ev.start - 1 * 3600 ≤ now) ∧
      (stepMarkers now ev m).1.notified_24h_at =
        (if m.notified_24h_at = none ∧ ev.start - 24 * 3600 ≤ now then some now
         else m.notified_24h_at) ∧
      (stepMarkers now ev m).1.notified_1h_at =
        (if m.notified_1h_at = none ∧ ev.start - 1 * 3600 ≤ now then some now
         else m.notified_1h_at)) ∧
    (ev.etype = "moon" →
      (push1hMoon ev ∈ (stepMarkers now ev m).2 ↔
        m.notified_1h_at = none ∧ ev.start - 1 * 3600 ≤ now) ∧
      (stepMarkers now ev m).1.notified_1h_at =
        (if m.notified_1h_at = none ∧ ev.start - 1 * 3600 ≤ now then some now
         else m.notified_1h_at) ∧
      ∀ p ∈ (stepMarkers now ev m).2, p = push1hMoon ev) ∧
    (∀ (nows : List Int) (t : Int),
      (m.notified_12h_at = some t → (runMarkers ev nows m).1.notified_12h_at = some t ∧
        ∀ p ∈ (runMarkers ev nows m).2, p.body ≠ "Meteor shower peak in ~12 hours.") ∧
      (m.notified_24h_at = some t → (runMarkers ev nows m).1.notified_24h_at = some t ∧
        ∀ p ∈ (runMarkers ev nows m).2, p.body ≠ "Event begins in ~24 hours.") ∧
      (m.notified_1h_at = some t → (runMarkers ev nows m).1.notified_1h_at = some t ∧
        ∀ p ∈ (runMarkers ev nows m).2,
          p.body ≠ "Meteor shower peak in ~1 hour." ∧ p.body ≠ "Event begins in ~1 hour." ∧
          p.body ≠ "Moon phase happening in ~1 hour.")) := by
  refine ⟨?_, ?_, ?_, ?_⟩
  · intro h
    unfold stepMarkers
    by_cases h12 : m.notified_12h_at = none ∧ ev.start - 12 * 3600 ≤ now <;>
      by_cases h1 : m.notified_1h_at = none ∧ ev.start - 1 * 3600 ≤ now <;>
      simp_all [push12hMeteor, push1hMeteor]
  · rintro (h | h | h) <;>
      (unfold stepMarkers
       by_cases h24 : m.notified_24h_at = none ∧ ev.start - 24 * 3600 ≤ now <;>
        by_cases h1 : m.notified_1h_at = none ∧ ev.start - 1 * 3600 ≤ now <;>
        simp_all [push24hMajor, push1hMajor])
  · intro h
    unfold stepMarkers
    by_cases h1 : m.notified_1h_at = none ∧ ev.start - 1 * 3600 ≤ now <;>
      simp_all [push1hMoon]
  · intro nows t
    have h := runMarkers_keeps_fired ev nows m t
    exact ⟨h.2.2.1, h.2.2.2.1, h.2.2.2.2⟩

/-- Closed instance of `milestone_state_machine`: a meteor event 12 hours
before its start dispatches the 12h reminder from a blank marker state,
and with the 12h marker already set a further pass dispatches nothing. -/
theorem milestone_state_machine_witness :
    push12hMeteor demoMeteor ∈ (stepMarkers 56800 demoMeteor {}).2 ∧
    (runMarkers demoMeteor [56800] { notified_12h_at := some 1, notified_1h_at := some 1 }).2 =
      [] :=
  ⟨((milestone_state_machine 56800 demoMeteor {}).1 rfl).1.mpr (by decide),
   by decide⟩

/-- C1 counterexample: a saved aurora event is processed by the milestone
loop — with a blank marker state and `now = start − 1h` the loop
dispatches the aurora 4h-before push and writes the `notified_4h_at`
marker, contradicting the claim that aurora events produce no push and
no marker there. -/
theorem aurora_not_excluded_counterexample :
    (stepMarkers 3600 demoAurora {}).2 = [push4hAurora demoAurora] ∧
    (stepMarkers 3600 demoAurora {}).1.notified_4h_at = some 3600 := by decide

/-- C1 amended: saved aurora events are handled by the milestone loop
with their own milestones — 4h-before and 30m-before — each dispatching
and setting its marker exactly when the marker is unset and the lead
time is reached, with set markers terminal. -/
theorem aurora_milestones_in_loop (now : Int) (ev : SavedEvent) (m : Markers)
    (h : ev.etype = "aurora") :
    (push4hAurora ev ∈ (stepMarkers now ev m).2 ↔
      m.notified_4h_at = none ∧ ev.start - 4 * 3600 ≤ now) ∧
    (push30mAurora ev ∈ (stepMarkers now ev m).2 ↔
      m.notified_30m_at = none ∧ ev.start - 30 * 60 ≤ now) ∧
    (stepMarkers now ev m).1.notified_4h_at =
      (if m.notified_4h_at = none ∧ ev.start - 4 * 3600 ≤ now then some now
       else m.notified_4h_at) ∧
    (stepMarkers now ev m).1.notified_30m_at =
      (if m.notified_30m_at = none ∧ ev.start - 30 * 60 ≤ now then some now
       else m.notified_30m_at) ∧
    (∀ (nows : List Int) (t : Int),
      (m.notified_4h_at = some t → (runMarkers ev nows m).1.notified_4h_at = some t ∧
        ∀ p ∈ (runMarkers ev nows m).2, p.body ≠ "Aurora expected in ~4 hours.") ∧
      (m.notified_30m_at = some t → (runMarkers ev nows m).1.notified_30m_at = some t ∧
        ∀ p ∈ (runMarkers ev nows m).2, p.body ≠ "Aurora activity starting shortly.")) := by
  refine ⟨?_, ?_, ?_, ?_, ?_⟩
  · unfold stepMarkers
    by_cases h4 : m.notified_4h_at = none ∧ ev.start - 4 * 3600 ≤ now <;>
      by_cases h30 : m.notified_30m_at = none ∧ ev.start - 30 * 60 ≤ now <;>
      simp_all [push4hAurora, push30mAurora]
  · unfold stepMarkers
    by_cases h4 : m.notified_4h_at = none ∧ ev.start - 4 * 3600 ≤ now <;>
      by_cases h30 : m.notified_30m_at = none ∧ ev.start - 30 * 60 ≤ now <;>
      simp_all [push4hAurora, push30mAurora]
  · unfold stepMarkers
    by_cases h4 : m.notified_4h_at = none ∧ ev.start - 4 * 3600 ≤ now <;>
      simp_all
  · unfold stepMarkers
    by_cases h30 : m.notified_30m_at = none ∧ ev.start - 30 * 60 ≤ now <;>
      simp_all
  · intro nows t
    have hr := runMarkers_keeps_fired ev nows m t
    exact ⟨hr.1, hr.2.1⟩

/-- Closed instance of `aurora_milestones_in_loop`: the concrete aurora
event one hour before start fires its 4h milestone. -/
theorem aurora_milestones_in_loop_witness :
    push4hAurora demoAurora ∈ (stepMarkers 3600 demoAurora {}).2 :=
  (aurora_milestones_in_loop 3600 demoAurora {} rfl).1.mpr (by decide)

/-- Helper: a user already in the `processed` set is never pushed by the
remaining rows of an aurora cycle. -/
theorem auroraCycleGo_processed_not_pushed (likely : ℚ → Bool) (now : Int) :
    ∀ (rows : List AuroraRow) (processed : List String) (u : String),
      u ∈ processed → u ∉ (auroraCycleGo likely now rows processed).1
  | [], _, _, _ => by simp [auroraCycleGo]
  | row :: rest, processed, u, hu => by
    have ih1 := auroraCycleGo_processed_not_pushed likely now rest processed u hu
    rcases row with ⟨_ | ⟨uidOpt, latOpt, lastOpt⟩⟩
    · exact ih1
    · rcases uidOpt with _ | uid
      · exact ih1
      · have ih2 := auroraCycleGo_processed_not_pushed likely now rest (uid :: processed) u
          (List.mem_cons_of_mem uid hu)
        by_cases hmem : uid ∈ processed
        · simpa [auroraCycleGo, hmem] using ih1
        · have hne : u ≠ uid := fun h => hmem (h ▸ hu)
          rcases latOpt with _ | lat
          · simpa [auroraCycleGo, hmem] using ih2
          · rcases lastOpt with _ | l
            · by_cases hlik : likely lat = true <;>
                simp_all [auroraCycleGo]
            · by_cases hc : now - l < 12 * 3600 <;>
                by_cases hlik : likely lat = true <;>
                simp_all [auroraCycleGo] <;>
                rw [if_neg (by omega)] <;>
                simp_all

/-- Helper: every user is pushed at most once per aurora cycle. -/
theorem auroraCycleGo_count_le_one (likely : ℚ → Bool) (now : Int) :
    ∀ (rows : List AuroraRow) (processed : List String) (u : String),
      (auroraCycleGo likely now rows processed).1.count u ≤ 1
  | [], _, _ => by simp [auroraCycleGo]
  | row :: rest, processed, u => by
    have ih1 := auroraCycleGo_count_le_one likely now rest processed u
    rcases row with ⟨_ | ⟨uidOpt, latOpt, lastOpt⟩⟩
    · exact ih1
    · rcases uidOpt with _ | uid
      · exact ih1
      · have ih2 := auroraCycleGo_count_le_one likely now rest (uid :: processed) u
        by_cases hmem : uid ∈ processed
        · simpa [auroraCycleGo, hmem] using ih1
        · have hzero : (auroraCycleGo likely now rest (uid :: processed)).1.count uid = 0 :=
            List.count_eq_zero.mpr
              (auroraCycleGo_processed_not_pushed likely now rest (uid :: processed) uid
                (List.mem_cons_self uid processed))
          rcases latOpt with _ | lat
          · simpa [auroraCycleGo, hmem] using ih2
          · rcases lastOpt with _ | l
            · by_cases hlik : likely lat = true <;>
                by_cases hu : uid = u <;>
                simp_all [auroraCycleGo, List.count_cons]
            · by_cases hc : now - l < 12 * 3600 <;>
                by_cases hlik : likely lat = true <;>
                by_cases hu : uid = u <;>
                simp_all [auroraCycleGo, List.count_cons] <;>
                rw [if_neg (by omega)] <;>
                simp_all [List.count_cons]

/-- Helper: a user all of whose fetched rows carry a fresh
`last_aurora_push_at` (younger than 12h) is skipped by the cycle. -/
theorem auroraCycleGo_cooldown_skip (likely : ℚ → Bool) (now : Int) :
    ∀ (rows : List AuroraRow) (processed : List String) (u : String),
      (∀ r ∈ rows, ∀ usr : AuroraUser, r.users = some usr → usr.id = some u →
        ∃ last, usr.last_aurora_push_at = some last ∧ now - last < 12 * 3600) →
      u ∉ (auroraCycleGo likely now rows processed).1
  | [], _, _, _ => by simp [auroraCycleGo]
  | row :: rest, processed, u, hfresh => by
    have hrest : ∀ r ∈ rest, ∀ usr : AuroraUser, r.users = some usr → usr.id = some u →
        ∃ last, usr.last_aurora_push_at = some last ∧ now - last < 12 * 3600 :=
      fun r hr => hfresh r (List.mem_cons_of_mem row hr)
    have ih1 := auroraCycleGo_cooldown_skip likely now rest processed u hrest
    rcases row with ⟨_ | ⟨uidOpt, latOpt, lastOpt⟩⟩
    · exact ih1
    · rcases uidOpt with _ | uid
      · exact ih1
      · have ih2 := auroraCycleGo_cooldown_skip likely now rest (uid :: processed) u hrest
        by_cases hmem : uid ∈ processed
        · simpa [auroraCycleGo, hmem] using ih1
        · rcases latOpt with _ | lat
          · simpa [auroraCycleGo, hmem] using ih2
          · by_cases hu : uid = u
            · subst hu
              have hthis := hfresh _ (List.mem_cons_self _ rest)
                ⟨some uid, some lat, lastOpt⟩ rfl rfl
              rcases hthis with ⟨l, hl, hl12⟩
              simp only at hl
              subst hl
              by_cases hc : now - l < 12 * 3600
              · simp_all [auroraCycleGo]
              · exact absurd hl12 hc
            · rcases lastOpt with _ | l
              · by_cases hlik : likely lat = true <;> simp_all [auroraCycleGo] <;>
                  exact fun h' => hu h'.symm
              · by_cases hc : now - l < 12 * 3600 <;>
                  by_cases hlik : likely lat = true <;>
                  simp_all [auroraCycleGo] <;>
                  rw [if_neg (by omega)] <;>
                  simp_all <;>
                  exact fun h' => hu h'.symm

/-- Helper: a dispatched user has a fetched row with a known latitude
whose forecast is likely and whose cooldown had lapsed (or was absent). -/
theorem auroraCycleGo_pushed_implies (likely : ℚ → Bool) (now : Int) :
    ∀ (rows : List AuroraRow) (processed : List String) (u : String),
      u ∈ (auroraCycleGo likely now rows processed).1 →
      ∃ r ∈ rows, ∃ usr : AuroraUser, ∃ lat : ℚ, r.users = some usr ∧ usr.id = some u ∧
        usr.lat = some lat ∧ likely lat = true ∧
        ∀ last, usr.last_aurora_push_at = some last → 12 * 3600 ≤ now - last
  | [], _, _, h => by simp [auroraCycleGo] at h
  | row :: rest, processed, u, h => by
    rcases row with ⟨_ | ⟨uidOpt, latOpt, lastOpt⟩⟩
    · rcases auroraCycleGo_pushed_implies likely now rest processed u h with ⟨r, hr, hr'⟩
      exact ⟨r, List.mem_cons_of_mem _ hr, hr'⟩
    · rcases uidOpt with _ | uid
      · rcases auroraCycleGo_pushed_implies likely now rest processed u h with ⟨r, hr, hr'⟩
        exact ⟨r, List.mem_cons_of_mem _ hr, hr'⟩
      · by_cases hmem : uid ∈ processed
        · rw [show auroraCycleGo likely now
              (⟨some ⟨some uid, latOpt, lastOpt⟩⟩ :: rest) processed =
              auroraCycleGo likely now rest processed by
            simp [auroraCycleGo, hmem]] at h
          rcases auroraCycleGo_pushed_implies likely now rest processed u h with ⟨r, hr, hr'⟩
          exact ⟨r, List.mem_cons_of_mem _ hr, hr'⟩
        · rcases latOpt with _ | lat
          · rw [show auroraCycleGo likely now
                (⟨some ⟨some uid, none, lastOpt⟩⟩ :: rest) processed =
                auroraCycleGo likely now rest (uid :: processed) by
              simp [auroraCycleGo, hmem]] at h
            rcases auroraCycleGo_pushed_implies likely now rest (uid :: processed) u h with
              ⟨r, hr, hr'⟩
            exact ⟨r, List.mem_cons_of_mem _ hr, hr'⟩
          · rcases lastOpt with _ | l
            · by_cases hlik : likely lat = true
              · rw [show auroraCycleGo likely now
                    (⟨some ⟨some uid, some lat, none⟩⟩ :: rest) processed =
                    (uid :: (auroraCycleGo likely now rest (uid :: processed)).1,
                      (uid, now) :: (auroraCycleGo likely now rest (uid :: processed)).2) by
                  simp [auroraCycleGo, hmem, hlik]] at h
                simp only [List.mem_cons] at h
                rcases h with rfl | h
                · exact ⟨_, List.mem_cons_self _ rest, ⟨some u, some lat, none⟩, lat,
                    rfl, rfl, rfl, hlik, fun l hl => by simp at hl⟩
                · rcases auroraCycleGo_pushed_implies likely now rest (uid :: processed) u h
                    with ⟨r, hr, hr'⟩
                  exact ⟨r, List.mem_cons_of_mem _ hr, hr'⟩
              · rw [show auroraCycleGo likely now
                    (⟨some ⟨some uid, some lat, none⟩⟩ :: rest) processed =
                    auroraCycleGo likely now rest (uid :: processed) by
                  simp [auroraCycleGo, hmem, hlik]] at h
                rcases auroraCycleGo_pushed_implies likely now rest (uid :: processed) u h
                  with ⟨r, hr, hr'⟩
                exact ⟨r, List.mem_cons_of_mem _ hr, hr'⟩
            · by_cases hc : now - l < 12 * 3600
              · rw [show auroraCycleGo likely now
                    (⟨some ⟨some uid, some lat, some l⟩⟩ :: rest) processed =
                    auroraCycleGo likely now rest (uid :: processed) by
                  simp [auroraCycleGo, hmem]
                  intro h1 h2
                  exact absurd hc (by omega)] at h
                rcases auroraCycleGo_pushed_implies likely now rest (uid :: processed) u h
                  with ⟨r, hr, hr'⟩
                exact ⟨r, List.mem_cons_of_mem _ hr, hr'⟩
              · by_cases hlik : likely lat = true
                · rw [show auroraCycleGo likely now
                      (⟨some ⟨some uid, some lat, some l⟩⟩ :: rest) processed =
                      (uid :: (auroraCycleGo likely now rest (uid :: processed)).1,
                        (uid, now) :: (auroraCycleGo likely now rest (uid :: processed)).2) by
                    simp [auroraCycleGo, hmem, hlik]
                    intro h1
                    exact absurd h1 (by omega)] at h
                  simp only [List.mem_cons] at h
                  rcases h with rfl | h
                  · refine ⟨_, List.mem_cons_self _ rest, ⟨some u, some lat, some l⟩, lat,
                      rfl, rfl, rfl, hlik, fun l' hl' => ?_⟩
                    simp only [Option.some.injEq] at hl'
                    subst hl'
                    omega
                  · rcases auroraCycleGo_pushed_implies likely now rest (uid :: processed) u h
                      with ⟨r, hr, hr'⟩
                    exact ⟨r, List.mem_cons_of_mem _ hr, hr'⟩
                · rw [show auroraCycleGo likely now
                      (⟨some ⟨some uid, some lat, some l⟩⟩ :: rest) processed =
                      auroraCycleGo likely now rest (uid :: processed) by
                    simp [auroraCycleGo, hmem, hlik]] at h
                  rcases auroraCycleGo_pushed_implies likely now rest (uid :: processed) u h
                    with ⟨r, hr, hr'⟩
                  exact ⟨r, List.mem_cons_of_mem _ hr, hr'⟩

/-- Helper: the patches written by a cycle are exactly the dispatches,
each persisting the cycle timestamp. -/
theorem auroraCycleGo_patches (likely : ℚ → Bool) (now : Int) :
    ∀ (rows : List AuroraRow) (processed : List String),
      (auroraCycleGo likely now rows processed).2 =
        (auroraCycleGo likely now rows processed).1.map fun v => (v, now)
  | [], _ => by simp [auroraCycleGo]
  | row :: rest, processed => by
    have ih1 := auroraCycleGo_patches likely now rest processed
    rcases row with ⟨_ | ⟨uidOpt, latOpt, lastOpt⟩⟩
    · exact ih1
    · rcases uidOpt with _ | uid
      · exact ih1
      · have ih2 := auroraCycleGo_patches likely now rest (uid :: processed)
        by_cases hmem : uid ∈ processed
        · simpa [auroraCycleGo, hmem] using ih1
        · rcases latOpt with _ | lat
          · simpa [auroraCycleGo, hmem] using ih2
          · rcases lastOpt with _ | l
            · by_cases hlik : likely lat = true <;> simp_all [auroraCycleGo]
            · by_cases hc : now - l < 12 * 3600 <;>
                by_cases hlik : likely lat = true <;>
                simp_all [auroraCycleGo] <;>
                rw [if_neg (by omega)] <;>
                simp_all

/-- C7: the aurora loop dispatches to each user at most once per cycle
(deduplicated processing), skips users whose last aurora push is younger
than 12 hours, dispatches only on a likely forecast with a lapsed (or
absent) cooldown, persists the cycle timestamp for every dispatch, and
two cycles less than 12 hours apart — the second reading the
`last_aurora_push_at` the first wrote — dispatch to a user at most once
in total. -/
theorem aurora_cooldown_policy (likely likely2 : ℚ → Bool) (now t2 : Int)
    (rows rows2 : List AuroraRow) (u : String) :
    (aurora_notification_cycle likely now rows).1.count u ≤ 1 ∧
    ((∀ r ∈ rows, ∀ usr : AuroraUser, r.users = some usr → usr.id = some u →
        ∃ last, usr.last_aurora_push_at = some last ∧ now - last < 12 * 3600) →
      u ∉ (aurora_notification_cycle likely now rows).1) ∧
    (u ∈ (aurora_notification_cycle likely now rows).1 →
      ∃ r ∈ rows, ∃ usr : AuroraUser, ∃ lat : ℚ, r.users = some usr ∧ usr.id = some u ∧
        usr.lat = some lat ∧ likely lat = true ∧
        ∀ last, usr.last_aurora_push_at = some last → 12 * 3600 ≤ now - last) ∧
    ((aurora_notification_cycle likely now rows).2 =
      (aurora_notification_cycle likely now rows).1.map fun v => (v, now)) ∧
    (t2 - now < 12 * 3600 →
      (u ∈ (aurora_notification_cycle likely now rows).1 →
        ∀ r ∈ rows2, ∀ usr : AuroraUser, r.users = some usr → usr.id = some u →
          usr.last_aurora_push_at = some now) →
      ((aurora_notification_cycle likely now rows).1 ++
        (aurora_notification_cycle likely2 t2 rows2).1).count u ≤ 1) := by
  refine ⟨auroraCycleGo_count_le_one likely now rows [] u,
    fun h => auroraCycleGo_cooldown_skip likely now rows [] u h,
    fun h => auroraCycleGo_pushed_implies likely now rows [] u h,
    auroraCycleGo_patches likely now rows [], ?_⟩
  intro h12 hsync
  rw [List.count_append]
  by_cases hu1 : u ∈ (aurora_notification_cycle likely now rows).1
  · have hc2 : u ∉ (aurora_notification_cycle likely2 t2 rows2).1 := by
      apply auroraCycleGo_cooldown_skip likely2 t2 rows2 [] u
      intro r hr usr husr hid
      exact ⟨now, hsync hu1 r hr usr husr hid, h12⟩
    have : (aurora_notification_cycle likely2 t2 rows2).1.count u = 0 :=
      List.count_eq_zero.mpr hc2
    rw [this]
    simpa using auroraCycleGo_count_le_one likely now rows [] u
  · have : (aurora_notification_cycle likely now rows).1.count u = 0 :=
      List.count_eq_zero.mpr hu1
    rw [this]
    simpa using auroraCycleGo_count_le_one likely2 t2 rows2 [] u

/-- Closed instance of `aurora_cooldown_policy`: one user with two saved
aurora rows, a likely forecast and no prior push is dispatched exactly
once, and a second cycle 6 hours later dispatches nothing. -/
theorem aurora_cooldown_policy_witness :
    (aurora_notification_cycle (fun _ => true) 0
        [⟨some ⟨some "u1", some 60, none⟩⟩, ⟨some ⟨some "u1", some 60, none⟩⟩]).1.count
      "u1" ≤ 1 ∧
    (((aurora_notification_cycle (fun _ => true) 0
          [⟨some ⟨some "u1", some 60, none⟩⟩, ⟨some ⟨some "u1", some 60, none⟩⟩]).1 ++
        (aurora_notification_cycle (fun _ => true) 21600
          [⟨some ⟨some "u1", some 60, some 0⟩⟩]).1).count "u1") ≤ 1 :=
  ⟨(aurora_cooldown_policy (fun _ => true) (fun _ => true) 0 21600
      [⟨some ⟨some "u1", some 60, none⟩⟩, ⟨some ⟨some "u1", some 60, none⟩⟩] [] "u1").1,
   (aurora_cooldown_policy (fun _ => true) (fun _ => true) 0 21600
      [⟨some ⟨some "u1", some 60, none⟩⟩, ⟨some ⟨some "u1", some 60, none⟩⟩]
      [⟨some ⟨some "u1", some 60, some 0⟩⟩] "u1").2.2.2.2 (by decide)
      (fun _ r hr usr husr hid => by
        simp only [List.mem_singleton] at hr
        subst hr
        simp only [Option.some.injEq] at husr
        subst husr
        rfl)⟩

/-- Closed instance of `visibility_score_spec`: a comet event with no
matching night hours scores its base 55 with reason
`"visibility uncertain"`. -/
theorem visibility_score_spec_witness :
    estimate_visibility
        { id := "c1", etype := "comet", title := "C", start := 0, stop := 3600 } 50 0 ⟨[]⟩ =
      { chance := 55, reason := "visibility uncertain" } :=
  (visibility_score_spec
    { id := "c1", etype := "comet", title := "C", start := 0, stop := 3600 } 50 0 ⟨[]⟩).2.1 rfl

/-- C2 counterexample: a comet catalog event with `end = now − 23h` (so
`end + 24h ≥ now`) is NOT included in the upcoming feed — the comet
source filter `end >= now` already removed it — contradicting the claim
that such an event is included regardless of its past start. -/
theorem upcoming_grace_window_counterexample :
    upcoming_events 1900000000 [] [c2comet] [] [] none none none = [] ∧
    ¬ c2comet.stop + 24 * 3600 < 1900000000 := by
  constructor
  · have h1 : (upcoming_all_events 1900000000 [] [c2comet] [] [] none none).filterMap
        (enrichOne 1900000000 none none) = [] := by decide
    unfold upcoming_events
    rw [h1]
    simp [List.mergeSort_nil]
  · decide

/-- C2 amended: the feed-level enrichment filter of `upcoming_events`
drops an aggregated event exactly when `end + 24h < now` (so an
aggregated event with `end = now − 25h` is dropped and one with
`end = now − 23h` is kept), but each catalog source pre-filters first:
comets are kept exactly when `end ≥ now`, and eclipse, meteor and
alignment events exactly when `start ≥ now` — hence a catalog event
whose source filter fails (for example a comet with `end = now − 23h`)
never reaches the feed at all. -/
theorem upcoming_filter_characterization (now : Int) (latlon : Option (ℚ × ℚ))
    (weather : Option Weather) (e : CatalogEvent) (raw : List CatalogEvent)
    (mraw : List MeteorRaw) :
    (enrichOne now latlon weather e = none ↔ e.stop + 86400 < now) ∧
    (e ∈ get_comet_events raw now ↔ e ∈ raw ∧ now ≤ e.stop) ∧
    (e ∈ get_eclipse_events now ↔ e ∈ eclipseCatalog ∧ now ≤ e.start) ∧
    (e ∈ get_meteor_events mraw now ↔ (∃ m ∈ mraw, meteor_event_of m = e) ∧ now ≤ e.start) ∧
    (e ∈ get_alignment_events raw now ↔ e ∈ raw ∧ now ≤ e.start) := by
  refine ⟨?_, ?_, ?_, ?_, ?_⟩
  · constructor
    · intro h
      by_contra hlt
      unfold enrichOne at h
      rw [if_neg hlt] at h
      rcases weather with _ | w
      · simp at h
      · rcases latlon with _ | ll
        · simp at h
        · by_cases hw : Int.fdiv (e.start - now) 86400 ≤ VISIBILITY_WINDOW_DAYS <;>
            simp [hw] at h
    · intro h
      unfold enrichOne
      rw [if_pos h]
  · simp [get_comet_events, List.mem_filter]
  · simp [get_eclipse_events, List.mem_filter, is_future]
  · simp only [get_meteor_events, List.mem_filter, List.mem_map, is_future]
    constructor
    · rintro ⟨⟨m, hm, rfl⟩, h2⟩
      exact ⟨⟨m, hm, rfl⟩, by simpa using h2⟩
    · rintro ⟨⟨m, hm, rfl⟩, h2⟩
      exact ⟨⟨m, hm, rfl⟩, by simpa using h2⟩
  · simp [get_alignment_events, List.mem_filter, is_future]

/-- Closed instance of `upcoming_filter_characterization`: the `c2comet`
event survives the feed-level grace filter but fails the comet source
filter. -/
theorem upcoming_filter_characterization_witness :
    enrichOne 1900000000 none none c2comet ≠ none ∧
    c2comet ∉ get_comet_events [c2comet] 1900000000 :=
  ⟨fun h => absurd
      ((upcoming_filter_characterization 1900000000 none none c2comet [] []).1.mp h)
      (by decide),
   fun h => absurd
      ((upcoming_filter_characterization 1900000000 none none c2comet [c2comet] []).2.1.mp
        h).2
      (by decide)⟩

/-- C8 counterexample: with weather and coordinates supplied, an event
whose start lies 28.5 days after `now` — beyond 28 days — is still
returned WITH the visibility annotation, because the source compares
`(start - now).days <= 28` with floor division; this contradicts the
claim that events beyond 28 days are returned unannotated. -/
theorem visibility_window_counterexample :
    upcoming_events 1900000000 [] [c8event] [] [] (some (10, 10)) (some ⟨[]⟩) none =
      [{ c8event with visibility := .score ⟨55, "visibility uncertain"⟩ }] ∧
    1900000000 + 28 * 86400 < c8event.start := by
  constructor
  · have h1 : (upcoming_all_events 1900000000 [] [c8event] [] [] (some (10, 10))
          none).filterMap
        (enrichOne 1900000000 (some (10, 10)) (some ⟨[]⟩)) =
        [{ c8event with visibility := .score ⟨55, "visibility uncertain"⟩ }] := by decide
    unfold upcoming_events
    rw [h1]
    simp [List.mergeSort_singleton]
  · decide

/-- C8 amended: with weather and coordinates supplied, every returned
event whose start is before `now + 29 days` (floor day-difference at
most 28 — including starts between 28 and 29 days away) carries the
visibility-score annotation, and every returned event whose start is at
least 29 days away is an unmodified element of the aggregated source
list (all original fields, including the visibility scope, unchanged). -/
theorem visibility_window_spec (now : Int) (mraw : List MeteorRaw)
    (cometRaw alignRaw : List CatalogEvent) (moonRaw : List MoonRawEntry)
    (ll : ℚ × ℚ) (w : Weather) (forecast : Option AuroraForecast) :
    ∀ e' ∈ upcoming_events now mraw cometRaw alignRaw moonRaw (some ll) (some w) forecast,
      (e'.start < now + 29 * 86400 → ∃ v, e'.visibility = VisField.score v) ∧
      (now + 29 * 86400 ≤ e'.start →
        e' ∈ upcoming_all_events now mraw cometRaw alignRaw moonRaw (some ll) forecast) := by
  intro e' he'
  have hmem : e' ∈ (upcoming_all_events now mraw cometRaw alignRaw moonRaw (some ll)
      forecast).filterMap (enrichOne now (some ll) (some w)) := by
    have h2 := List.take_subset 50 _ he'
    exact List.mem_mergeSort.mp h2
  rcases List.mem_filterMap.mp hmem with ⟨e, hel, henr⟩
  simp only [enrichOne] at henr
  by_cases hdrop : e.stop + 86400 < now
  · rw [if_pos hdrop] at henr
    exact absurd henr (by simp)
  · rw [if_neg hdrop] at henr
    by_cases hwin : Int.fdiv (e.start - now) 86400 ≤ VISIBILITY_WINDOW_DAYS
    · rw [if_pos hwin] at henr
      simp only [Option.some.injEq] at henr
      constructor
      · intro _
        refine ⟨estimate_visibility e ll.1 ll.2 w, ?_⟩
        rw [← henr]
      · intro hb
        exfalso
        have hstart : e'.start = e.start := by rw [← henr]
        rw [hstart] at hb
        rw [Int.fdiv_eq_ediv _ (by norm_num)] at hwin
        unfold VISIBILITY_WINDOW_DAYS at hwin
        omega
    · rw [if_neg hwin] at henr
      simp only [Option.some.injEq] at henr
      subst henr
      constructor
      · intro hlt
        exfalso
        rw [Int.fdiv_eq_ediv _ (by norm_num)] at hwin
        unfold VISIBILITY_WINDOW_DAYS at hwin
        omega
      · intro _
        exact hel

/-- Closed instance of `visibility_window_spec`: the annotated copy of
`c8event` returned by the feed indeed carries a visibility score. -/
theorem visibility_window_spec_witness :
    ∃ v, ({ c8event with visibility := .score ⟨55, "visibility uncertain"⟩ } :
      CatalogEvent).visibility = VisField.score v :=
  (visibility_window_spec 1900000000 [] [c8event] [] [] (10, 10) ⟨[]⟩ none
      { c8event with visibility := .score ⟨55, "visibility uncertain"⟩ }
      (by
        have h1 : (upcoming_all_events 1900000000 [] [c8event] [] [] (some (10, 10))
              none).filterMap
            (enrichOne 1900000000 (some (10, 10)) (some ⟨[]⟩)) =
            [{ c8event with visibility := .score ⟨55, "visibility uncertain"⟩ }] := by decide
        unfold upcoming_events
        rw [h1]
        simp [List.mergeSort_singleton])).1 (by decide)

set_option maxHeartbeats 1000000 in
/-- Helper: a traditional month name that passes the curated filter can
only be the Strawberry Moon. -/
theorem monthName_mem_curated (m : Int) :
    monthName m = "Strawberry Moon" ∨ monthName m = "Supermoon" ∨
      monthName m = "Micromoon" →
    monthName m = "Strawberry Moon" := by
  unfold monthName
  split_ifs <;> decide

set_option maxHeartbeats 1000000 in
/-- Helper: no traditional month name is `"Supermoon"` or `"Micromoon"`. -/
theorem monthName_not_super_micro (m : Int) :
    monthName m ≠ "Supermoon" ∧ monthName m ≠ "Micromoon" := by
  unfold monthName
  split_ifs <;> decide

set_option maxHeartbeats 1000000 in
/-- C10: every event synthesized by `get_special_moon_events` has type
`"moon_special"` and title `"Strawberry Moon"`; the title computation can
never produce `"Supermoon"` or `"Micromoon"`; the second full moon of a
multi-moon month is retitled `"Blue Moon"` before the curated filter and
is therefore never emitted. -/
theorem special_moon_events_titles (raw : List MoonRawEntry) (days today : Int) :
    (∀ e ∈ get_special_moon_events raw days today,
      e.etype = "moon_special" ∧ e.title = "Strawberry Moon") ∧
    (∀ (mlen idx : Nat) (month : Int),
      specialMoonTitle mlen idx month ≠ "Supermoon" ∧
      specialMoonTitle mlen idx month ≠ "Micromoon") ∧
    (∀ (mlen idx : Nat) (month : Int), 1 < mlen → idx = 1 →
      specialMoonTitle mlen idx month = "Blue Moon") ∧
    (∀ (month : Int) (mlen : Nat) (im : Nat × ((Int × Int × Int) × String)),
      1 < mlen → im.1 = 1 → specialMoonEventOf month mlen im = none) := by
  refine ⟨?_, ?_, ?_, ?_⟩
  · intro e he
    rcases List.mem_flatMap.mp he with ⟨km, hkm, he2⟩
    rcases List.mem_filterMap.mp he2 with ⟨im, him, hsome⟩
    unfold specialMoonEventOf at hsome
    by_cases hcur : specialMoonTitle km.2.length im.1 km.1.2 = "Strawberry Moon" ∨
        specialMoonTitle km.2.length im.1 km.1.2 = "Supermoon" ∨
        specialMoonTitle km.2.length im.1 km.1.2 = "Micromoon"
    · rw [if_pos hcur] at hsome
      simp only [Option.some.injEq] at hsome
      subst hsome
      refine ⟨rfl, ?_⟩
      show specialMoonTitle km.2.length im.1 km.1.2 = "Strawberry Moon"
      unfold specialMoonTitle at hcur ⊢
      by_cases hblue : 1 < km.2.length ∧ im.1 = 1
      · rw [if_pos hblue] at hcur
        exact absurd hcur (by decide)
      · rw [if_neg hblue] at hcur ⊢
        exact monthName_mem_curated _ hcur
    · rw [if_neg hcur] at hsome
      exact absurd hsome (by simp)
  · intro mlen idx month
    unfold specialMoonTitle
    by_cases hb : 1 < mlen ∧ idx = 1
    · rw [if_pos hb]
      decide
    · rw [if_neg hb]
      exact monthName_not_super_micro month
  · intro mlen idx month h1 h2
    unfold specialMoonTitle
    rw [if_pos ⟨h1, h2⟩]
  · intro month mlen im h1 h2
    simp [specialMoonEventOf, specialMoonTitle, h1, h2]

/-- Closed instance of `special_moon_events_titles`: the event produced
from the June 2026 full moon is a `moon_special` Strawberry Moon. -/
theorem special_moon_events_titles_witness :
    strawberryDemo.etype = "moon_special" ∧ strawberryDemo.title = "Strawberry Moon" :=
  (special_moon_events_titles demoMoonRaw 60 demoMoonToday).1 strawberryDemo (by decide)

end ObservePro
